import Mathlib

/-!
Verification development for the docker-swarm deployment action.

The definitions below are shallow embeddings of the variable lifecycle
manager and garbage collector (`src/variables.ts`, provided as
`src/unnamed/part_015`), the rollout monitor (`src/monitoring.ts`), and the
shell-style interpolation engine (whose implementation file is absent from
the snapshot; it is modelled from the specification and pinned against the
repository's own test suite `tests/utils.test.ts`).

Conventions: JavaScript strings are `String`; `Map`s and label records are
association lists `List (String × String)` looked up first-match; absent or
`undefined` values are `Option`; thrown errors are `Except String`;
the filesystem is an explicit function `String → Option String`; machine
integers are `Nat`/`Int`.
-/

deriving instance DecidableEq for Except

/-- First-match lookup, the semantics of both `Map.get` and JS object
property access for our association-list encoding of records. -/
def lookupMap (m : List (String × String)) (k : String) : Option String :=
  (m.find? (fun p => p.1 == k)).map (fun p => p.2)

/-- `obj[k] = v` on a JS object: later writes win on read, which for
first-match lookup means removing the old binding and appending. -/
def setLabelKey (m : List (String × String)) (k v : String) : List (String × String) :=
  (m.filter (fun p => p.1 != k)) ++ [(k, v)]

/-- UTF-8 encoding of one scalar value (Node's `Buffer.from(s, "utf8")`
byte semantics; `Char` already excludes surrogates). -/
def utf8EncodeChar (c : Char) : List Nat :=
  let n := c.toNat
  if n < 0x80 then [n]
  else if n < 0x800 then
    [0xC0 + n / 64, 0x80 + n % 64]
  else if n < 0x10000 then
    [0xE0 + n / 4096, 0x80 + (n / 64) % 64, 0x80 + n % 64]
  else
    [0xF0 + n / 262144, 0x80 + (n / 4096) % 64, 0x80 + (n / 64) % 64, 0x80 + n % 64]

/-- UTF-8 bytes of a string. -/
def utf8Bytes (s : String) : List Nat :=
  (s.data.map utf8EncodeChar).flatten

/- SHA-256, modelling Node's `createHash("sha256") ... digest("hex")`.
All words are `Nat` reduced modulo `2 ^ 32`. -/

/-- 32-bit rotate right. -/
def rotr32 (n x : Nat) : Nat :=
  ((x >>> n) ||| (x <<< (32 - n))) % (2 ^ 32)

/-- SHA-256 small sigma 0. -/
def ssig0 (x : Nat) : Nat := rotr32 7 x ^^^ rotr32 18 x ^^^ (x >>> 3)

/-- SHA-256 small sigma 1. -/
def ssig1 (x : Nat) : Nat := rotr32 17 x ^^^ rotr32 19 x ^^^ (x >>> 10)

/-- SHA-256 big sigma 0. -/
def bsig0 (x : Nat) : Nat := rotr32 2 x ^^^ rotr32 13 x ^^^ rotr32 22 x

/-- SHA-256 big sigma 1. -/
def bsig1 (x : Nat) : Nat := rotr32 6 x ^^^ rotr32 11 x ^^^ rotr32 25 x

/-- Value of one lowercase hex digit (constants tables only). -/
def hexCharVal (c : Char) : Nat :=
  if c ≤ '9' then c.toNat - 48 else c.toNat - 87

/-- Parse a run of lowercase hex into 32-bit words, eight digits each. -/
def hexWords : Nat → List Char → List Nat
  | 0, _ => []
  | n + 1, cs =>
      if cs = [] then []
      else (cs.take 8).foldl (fun a c => a * 16 + hexCharVal c) 0 :: hexWords n (cs.drop 8)

/-- SHA-256 round constants. -/
def k256 : List Nat :=
  hexWords 64 (String.data
    ("428a2f9871374491b5c0fbcfe9b5dba53956c25b59f111f1923f82a4ab1c5ed5"
      ++ "d807aa9812835b01243185be550c7dc372be5d7480deb1fe9bdc06a7c19bf174"
      ++ "e49b69c1efbe47860fc19dc6240ca1cc2de92c6f4a7484aa5cb0a9dc76f988da"
      ++ "983e5152a831c66db00327c8bf597fc7c6e00bf3d5a7914706ca635114292967"
      ++ "27b70a852e1b21384d2c6dfc53380d13650a7354766a0abb81c2c92e92722c85"
      ++ "a2bfe8a1a81a664bc24b8b70c76c51a3d192e819d6990624f40e3585106aa070"
      ++ "19a4c1161e376c082748774c34b0bcb5391c0cb34ed8aa4a5b9cca4f682e6ff3"
      ++ "748f82ee78a5636f84c878148cc7020890befffaa4506cebbef9a3f7c67178f2"))

/-- SHA-256 initial hash state. -/
def h256 : List Nat :=
  hexWords 8 (String.data
    "6a09e667bb67ae853c6ef372a54ff53a510e527f9b05688c1f83d9ab5be0cd19")

/-- Merkle–Damgård padding: append `0x80`, zeros to 56 mod 64, then the
bit length as eight big-endian bytes. -/
def sha256Pad (msg : List Nat) : List Nat :=
  let l := msg.length
  let zeros := (119 - (l % 64)) % 64
  let bitLen := 8 * l
  msg ++ [0x80] ++ List.replicate zeros 0
      ++ (List.range 8).map (fun i => (bitLen >>> (56 - 8 * i)) % 256)

/-- Pack bytes into 32-bit big-endian words. -/
def bytesToWords : List Nat → List Nat
  | b0 :: b1 :: b2 :: b3 :: rest =>
      (((b0 * 256 + b1) * 256 + b2) * 256 + b3) :: bytesToWords rest
  | _ => []

/-- Split a word list into 16-word blocks (the counter bounds recursion). -/
def splitBlocks : Nat → List Nat → List (List Nat)
  | 0, _ => []
  | _ + 1, [] => []
  | n + 1, ws => ws.take 16 :: splitBlocks n (ws.drop 16)

/-- Message-schedule extension of a 16-word block to 64 words. -/
def sha256Schedule (block : List Nat) : List Nat :=
  let step := fun (w : Array Nat) (_ : Nat) =>
    let n := w.size
    w.push ((w.getD (n - 16) 0 + ssig0 (w.getD (n - 15) 0)
            + w.getD (n - 7) 0 + ssig1 (w.getD (n - 2) 0)) % (2 ^ 32))
  ((List.range 48).foldl step block.toArray).toList

/-- One SHA-256 compression round. -/
def sha256Round (st : Nat × Nat × Nat × Nat × Nat × Nat × Nat × Nat) (kw : Nat × Nat) :
    Nat × Nat × Nat × Nat × Nat × Nat × Nat × Nat :=
  let (a, b, c, d, e, f, g, h) := st
  let t1 := (h + bsig1 e + ((e &&& f) ^^^ ((e ^^^ 0xffffffff) &&& g)) + kw.1 + kw.2) % (2 ^ 32)
  let t2 := (bsig0 a + ((a &&& b) ^^^ (a &&& c) ^^^ (b &&& c))) % (2 ^ 32)
  ((t1 + t2) % (2 ^ 32), a, b, c, (d + t1) % (2 ^ 32), e, f, g)

/-- Compress one block into the running hash state. -/
def sha256Compress (st : List Nat) (block : List Nat) : List Nat :=
  let w := sha256Schedule block
  match st with
  | [a0, b0, c0, d0, e0, f0, g0, h0] =>
    let (a, b, c, d, e, f, g, h) :=
      (k256.zip w).foldl sha256Round (a0, b0, c0, d0, e0, f0, g0, h0)
    [(a0 + a) % (2 ^ 32), (b0 + b) % (2 ^ 32), (c0 + c) % (2 ^ 32), (d0 + d) % (2 ^ 32),
     (e0 + e) % (2 ^ 32), (f0 + f) % (2 ^ 32), (g0 + g) % (2 ^ 32), (h0 + h) % (2 ^ 32)]
  | other => other

/-- SHA-256 digest words of a byte string. -/
def sha256Words (msg : List Nat) : List Nat :=
  let ws := bytesToWords (sha256Pad msg)
  (splitBlocks ws.length ws).foldl sha256Compress h256

/-- Lowercase hex digit. -/
def hexDigit (n : Nat) : Char :=
  if n < 10 then Char.ofNat (48 + n) else Char.ofNat (87 + n % 16)

/-- A 32-bit word as eight lowercase hex digits. -/
def toHex32 (n : Nat) : String :=
  String.mk ((List.range 8).map (fun i => hexDigit ((n >>> (28 - 4 * i)) % 16)))

/-- Hex SHA-256 digest of a string's UTF-8 bytes:
`createHash("sha256").update(s).digest("hex")`. -/
def sha256Hex (s : String) : String :=
  String.join ((sha256Words (utf8Bytes s)).map toHex32)

example : sha256Hex "abc" =
    "ba7816bf8f01cfea414140de5dae2223b00361a396177a9cb410ff61f20015ad" := by decide

example : sha256Hex "" =
    "e3b0c44298fc1c149afbf4c8996fb92427ae41e4649b934ca495991b7852b855" := by decide

/-!
## Interpolation Engine

Modelled from the spec: the implementation of `interpolateString` in
`src/utils.ts` is absent from the snapshot (only its callers and its test
suite are present), so the engine below follows the specification's
algorithm — protect literal `$$` with a placeholder, then repeatedly locate
the first remaining `$NAME` / `${NAME}` / `${NAME(op)(word)}` token,
resolve it, substitute and rescan, finally restore the placeholder — with
one deviation pinned by the repository's own tests
(`tests/utils.test.ts`, "Escaping"): the placeholder is restored to the
literal two-character sequence `$$`, not collapsed to a single `$`
(`interpolateString("$$NAME", {NAME: "John"})` must equal `"$$NAME"`).
-/

/-- Placeholder protecting escaped `$$` during scanning (a private-use
character assumed absent from inputs). -/
def escapeMark : Char := Char.ofNat 0xE000

/-- Replace every non-overlapping `$$` with the placeholder, left to right. -/
def protectEscapes : List Char → List Char
  | '$' :: '$' :: rest => escapeMark :: protectEscapes rest
  | c :: rest => c :: protectEscapes rest
  | [] => []

/-- Restore the placeholder to the literal `$$` (behaviour pinned by the
Escaping tests). -/
def restoreEscapes : List Char → List Char
  | [] => []
  | c :: rest =>
      if c = escapeMark then '$' :: '$' :: restoreEscapes rest
      else c :: restoreEscapes rest

/-- First character of a variable name: `[A-Za-z_]`. -/
def isNameStart (c : Char) : Bool := c.isAlpha || c = '_'

/-- Subsequent characters of a variable name: `[A-Za-z0-9_]`. -/
def isNameChar (c : Char) : Bool := c.isAlphanum || c = '_'

/-- A located variable reference: its name and, for the braced form, the
optional operator together with its default/alternative/message word. -/
structure VarRef where
  name : String
  op : Option (String × String)
deriving DecidableEq, Repr

/-- Parse an operator at the head of the character list (two-character
forms first). -/
def parseOp : List Char → Option (String × List Char)
  | ':' :: '-' :: r => some (":-", r)
  | ':' :: '+' :: r => some (":+", r)
  | ':' :: '?' :: r => some (":?", r)
  | '-' :: r => some ("-", r)
  | '+' :: r => some ("+", r)
  | '?' :: r => some ("?", r)
  | _ => none

/-- Parse the token body following a `$`. Returns the reference and the
remaining input, or `none` when the `$` starts no well-formed token
(malformed/unterminated input is left verbatim). -/
def parseAfterDollar : List Char → Option (VarRef × List Char)
  | '{' :: rest =>
      match rest with
      | c :: cs =>
          if isNameStart c then
            let (nm, rest1) := cs.span isNameChar
            let nameStr := String.mk (c :: nm)
            match rest1 with
            | '}' :: r2 => some (⟨nameStr, none⟩, r2)
            | r2 =>
                match parseOp r2 with
                | some (op, rest2) =>
                    let (word, rest3) := rest2.span (fun ch => ch ≠ '}' && ch ≠ '{')
                    match rest3 with
                    | '}' :: r4 => some (⟨nameStr, some (op, String.mk word)⟩, r4)
                    | _ => none
                | none => none
          else none
      | [] => none
  | c :: cs =>
      if isNameStart c then
        let (nm, rest1) := cs.span isNameChar
        some (⟨String.mk (c :: nm), none⟩, rest1)
      else none
  | [] => none

/-- Locate the first token of the text: the prefix before it, the
reference, and the suffix after it. -/
def findToken : List Char → Option (List Char × VarRef × List Char)
  | [] => none
  | '$' :: rest =>
      match parseAfterDollar rest with
      | some (tok, rest') => some ([], tok, rest')
      | none => (findToken rest).map (fun pr => ('$' :: pr.1, pr.2.1, pr.2.2))
  | c :: rest => (findToken rest).map (fun pr => (c :: pr.1, pr.2.1, pr.2.2))

/-- Resolve one reference against the environment, per the spec's operator
table; error messages are pinned by the test suite. -/
def resolveRef (vars : List (String × String)) (strict : Bool) (t : VarRef) :
    Except String String :=
  let value? := lookupMap vars t.name
  let missingMsg := fun (w : String) =>
    "Failed to resolve variable " ++ t.name ++ ": Missing required value: " ++ w
  match t.op with
  | none =>
      match value? with
      | some v => .ok v
      | none =>
          if strict then .error ("Variable " ++ t.name ++ " is required but not defined")
          else .ok ""
  | some ("-", w) => .ok (value?.getD w)
  | some (":-", w) =>
      .ok (match value? with
           | some v => if v = "" then w else v
           | none => w)
  | some ("+", w) => .ok (if value?.isSome then w else "")
  | some (":+", w) =>
      .ok (match value? with
           | some v => if v = "" then "" else w
           | none => "")
  | some ("?", w) =>
      match value? with
      | some v => .ok v
      | none => .error (missingMsg w)
  | some (":?", w) =>
      match value? with
      | some v => if v = "" then .error (missingMsg w) else .ok v
      | none => .error (missingMsg w)
  | some _ => .ok ""

/-- The substitute-and-rescan loop. The fuel bounds the rescan count,
modelling the implicit termination of the regex reloop (which the spec
itself flags as unbounded for cyclically-defined environments). -/
def interpolateCore (vars : List (String × String)) (strict : Bool) :
    Nat → List Char → Except String (List Char)
  | 0, cs => .ok cs
  | fuel + 1, cs =>
      match findToken cs with
      | none => .ok cs
      | some (pre, t, suf) =>
          match resolveRef vars strict t with
          | .error e => .error e
          | .ok val => interpolateCore vars strict fuel (pre ++ val.data ++ suf)

/-- Generous rescan fuel: far more than any terminating run needs. -/
def interpFuel (text : String) (vars : List (String × String)) : Nat :=
  256 + 16 * (text.length + (vars.map (fun p => p.1.length + p.2.length + 4)).sum)

/-- `interpolateString(text, variables, strict)` — see the module comment:
modelled from the spec, escape restoration pinned by the tests. -/
def interpolateString (text : String) (vars : List (String × String))
    (strict : Bool) : Except String String :=
  match interpolateCore vars strict (interpFuel text vars) (protectEscapes text.data) with
  | .error e => .error e
  | .ok cs => .ok (String.mk (restoreEscapes cs))

example : interpolateString "Hello $NAME" [("NAME", "John")] false = .ok "Hello John" := by decide

example : interpolateString "Hello $\x7bNAME\x7d" [("NAME", "John")] false =
    .ok "Hello John" := by decide

example : interpolateString "Hello $NAME" [] false = .ok "Hello " := by decide

example : interpolateString "$\x7bNAME-default\x7d" [] false = .ok "default" := by decide

example : interpolateString "$\x7bNAME:-default\x7d" [("NAME", "")] false =
    .ok "default" := by decide

example : interpolateString "$\x7bNAME-default\x7d" [("NAME", "")] false = .ok "" := by decide

example : interpolateString "$\x7bNAME:+alternative\x7d" [("NAME", "")] false =
    .ok "" := by decide

example : interpolateString "$\x7bNAME+alternative\x7d" [("NAME", "")] false =
    .ok "alternative" := by decide

example : interpolateString "$\x7bNAME:?error message\x7d" [] false =
    .error "Failed to resolve variable NAME: Missing required value: error message" := by decide

example : interpolateString "$\x7bNAME?error message\x7d" [("NAME", "")] false =
    .ok "" := by decide

example : interpolateString "$$NAME" [("NAME", "John")] false = .ok "$$NAME" := by decide

example : interpolateString "$$\x7bNAME:-default\x7d" [("NAME", "John")] false =
    .ok "$$\x7bNAME:-default\x7d" := by decide

example : interpolateString "Hello $NAME and $$NAME" [("NAME", "John")] false =
    .ok "Hello John and $$NAME" := by decide

example : interpolateString "$UNDEFINED" [] true =
    .error "Variable UNDEFINED is required but not defined" := by decide

example : interpolateString "Hello $\x7bNAME:-default\x7d" [] true =
    .ok "Hello default" := by decide

example : interpolateString "$" [] false = .ok "$" := by decide

example : interpolateString "$\x7b" [] false = .ok "$\x7b" := by decide

example : interpolateString "$VAR-NAME" [("VAR", "value")] false = .ok "value-NAME" := by decide

example : interpolateString "$A$B" [("A", "Hello"), ("B", "World")] false =
    .ok "HelloWorld" := by decide

example : interpolateString "$MESSAGE" [("BASE", "Hello"), ("MESSAGE", "$BASE World")] false =
    .ok "Hello World" := by decide

example : interpolateString "$C" [("A", "Hello"), ("B", "$A World"), ("C", "$B!")] false =
    .ok "Hello World!" := by decide

example : interpolateString "$MESSAGE" [("BASE", "Hello"), ("MESSAGE", "$\x7bBASE:-Default\x7d World")] false =
    .ok "Hello World" := by decide

example : interpolateString "nginx:$\x7bTAG:-latest\x7d" [] false = .ok "nginx:latest" := by decide

/-!
## Variable Lifecycle Manager (`src/variables.ts`)

`processVariable` and its helpers, translated from `src/unnamed/part_015`.
The filesystem is an explicit read map `fs : String → Option String`
(`exists` = membership, `readFile` = lookup); `crypto.randomUUID()` is an
explicit `token` argument; the temp-file *write* performed by
`transformVariable` is a side effect outside the model (only the path it
stores in the declaration matters downstream).
-/

def nameLabel : String := "com.matchory.deployment.name"

def hashLabel : String := "com.matchory.deployment.hash"

def stackLabel : String := "com.matchory.deployment.stack"

def versionLabel : String := "com.matchory.deployment.version"

def encodeLabel : String := "com.matchory.deployment.encode"

def decodeLabel : String := "com.matchory.deployment.decode"

def ignoreLabel : String := "com.matchory.deployment.ignore"

/-- A variable (secret or config) specification. Optional fields model the
duck-typed presence of the corresponding keys (`"file" in variable` etc.);
the remaining compose passthrough fields (driver, external, …) never
influence the functions below and are omitted. -/
structure Variable where
  name : Option String
  labels : Option (List (String × String))
  file : Option String
  environment : Option String
  content : Option String
deriving DecidableEq, Repr

/-- The empty object `{}`. -/
def emptyVariable : Variable := ⟨none, none, none, none, none⟩

/-- Deployment settings (subset used by the embedded components). Two
fields are renamed because their source names collide with Lean syntax:
`envVarPrefix` is `envVarPref` and `variables` is `variableMap`. -/
structure Settings where
  stack : String
  version : String
  envVarPref : String
  strictVariables : Bool
  variableMap : List (String × String)
  monitor : Bool
  monitorTimeout : Nat
  monitorInterval : Nat
deriving DecidableEq, Repr

/-- Whitespace for the purposes of JS `String.prototype.trim` (the common
ASCII whitespace plus NBSP, BOM and the line/paragraph separators). -/
def isJsWhitespace (c : Char) : Bool :=
  c = ' ' || c = '\t' || c = '\n' || c = '\x0d' || c = '\x0b' || c = '\x0c'
    || c = '\xa0' || c = Char.ofNat 0xFEFF || c = Char.ofNat 0x2028 || c = Char.ofNat 0x2029

/-- JS `value.trim()`: strip leading and trailing whitespace. -/
def jsTrim (s : String) : String :=
  String.mk (((s.data.dropWhile isJsWhitespace).reverse.dropWhile isJsWhitespace).reverse)

/-- JS `s.substring(0, n)` (all strings involved are ASCII, so UTF-16
units coincide with characters). -/
def strTake (s : String) (n : Nat) : String :=
  String.mk (s.data.take n)

/-- JS `s.toUpperCase()` on the ASCII names it is applied to. -/
def asciiUpper (s : String) : String :=
  String.mk (s.data.map Char.toUpper)

/-- `hashVariable`: hex SHA-256 of the trimmed value. -/
def hashVariable (value : String) : String :=
  sha256Hex (jsTrim value)

/- Encoding/decoding tables. Byte-level codecs model Node's `Buffer`
conversions; `url` models `encodeURIComponent`/`decodeURIComponent`.
Lenient UTF-8 decoding approximates Node's replacement-character
behaviour for invalid byte sequences. -/

/-- Standard base64 alphabet. -/
def base64Chars : List Char :=
  "ABCDEFGHIJKLMNOPQRSTUVWXYZabcdefghijklmnopqrstuvwxyz0123456789+/".data

/-- URL-safe base64 alphabet. -/
def base64UrlChars : List Char :=
  "ABCDEFGHIJKLMNOPQRSTUVWXYZabcdefghijklmnopqrstuvwxyz0123456789-_".data

/-- Encode bytes in groups of three; `pad` appends `=` padding. -/
def base64Groups (alphabet : List Char) (pad : Bool) : List Nat → List Char
  | b0 :: b1 :: b2 :: rest =>
      alphabet.getD (b0 / 4) 'A' :: alphabet.getD ((b0 % 4) * 16 + b1 / 16) 'A' ::
      alphabet.getD ((b1 % 16) * 4 + b2 / 64) 'A' :: alphabet.getD (b2 % 64) 'A' ::
      base64Groups alphabet pad rest
  | [b0, b1] =>
      alphabet.getD (b0 / 4) 'A' :: alphabet.getD ((b0 % 4) * 16 + b1 / 16) 'A' ::
      alphabet.getD ((b1 % 16) * 4) 'A' :: (if pad then ['='] else [])
  | [b0] =>
      alphabet.getD (b0 / 4) 'A' :: alphabet.getD ((b0 % 4) * 16) 'A' ::
      (if pad then ['=', '='] else [])
  | [] => []

/-- Value of one base64 character (Node accepts both alphabets). -/
def base64Val (c : Char) : Option Nat :=
  if 'A' ≤ c && c ≤ 'Z' then some (c.toNat - 65)
  else if 'a' ≤ c && c ≤ 'z' then some (c.toNat - 97 + 26)
  else if '0' ≤ c && c ≤ '9' then some (c.toNat - 48 + 52)
  else if c = '+' || c = '-' then some 62
  else if c = '/' || c = '_' then some 63
  else none

/-- Decode base64 values in groups of four; trailing lone values are
dropped, as Node does. -/
def base64DecodeVals : List Nat → List Nat
  | a :: b :: c :: d :: rest =>
      (a * 4 + b / 16) :: ((b % 16) * 16 + c / 4) :: ((c % 4) * 64 + d) ::
      base64DecodeVals rest
  | [a, b, c] => [a * 4 + b / 16, (b % 16) * 16 + c / 4]
  | [a, b] => [a * 4 + b / 16]
  | _ => []

/-- Uppercase hex digit. -/
def hexDigitUpper (n : Nat) : Char :=
  if n < 10 then Char.ofNat (48 + n) else Char.ofNat (55 + n % 16)

/-- Value of one hex digit, either case. -/
def hexVal (c : Char) : Option Nat :=
  if '0' ≤ c && c ≤ '9' then some (c.toNat - 48)
  else if 'a' ≤ c && c ≤ 'f' then some (c.toNat - 97 + 10)
  else if 'A' ≤ c && c ≤ 'F' then some (c.toNat - 65 + 10)
  else none

/-- Decode hex digit pairs; Node stops at the first invalid pair. -/
def hexDecodePairs : List Char → List Nat
  | a :: b :: rest =>
      match hexVal a, hexVal b with
      | some x, some y => (16 * x + y) :: hexDecodePairs rest
      | _, _ => []
  | _ => []

/-- Is a UTF-8 continuation byte. -/
def isContByte (b : Nat) : Bool := 0x80 ≤ b && b < 0xC0

/-- Lenient UTF-8 decoding with U+FFFD replacement for invalid sequences
(approximating `Buffer.prototype.toString("utf8")`). The fuel — one unit
per consumed lead byte — makes the recursion structural; the wrapper
passes the byte count, which always suffices. -/
def utf8DecodeLenientGo : Nat → List Nat → List Char
  | 0, _ => []
  | _ + 1, [] => []
  | fuel + 1, b :: rest =>
      if b < 0x80 then Char.ofNat b :: utf8DecodeLenientGo fuel rest
      else if b < 0xC2 then Char.ofNat 0xFFFD :: utf8DecodeLenientGo fuel rest
      else if b < 0xE0 then
        match rest with
        | c1 :: r1 =>
            if isContByte c1 then
              Char.ofNat ((b - 0xC0) * 64 + (c1 - 0x80)) :: utf8DecodeLenientGo fuel r1
            else Char.ofNat 0xFFFD :: utf8DecodeLenientGo fuel rest
        | [] => [Char.ofNat 0xFFFD]
      else if b < 0xF0 then
        match rest with
        | c1 :: c2 :: r2 =>
            let val := (b - 0xE0) * 4096 + (c1 - 0x80) * 64 + (c2 - 0x80)
            if isContByte c1 && isContByte c2 && 0x800 ≤ val
                && (val < 0xD800 || 0xE000 ≤ val) then
              Char.ofNat val :: utf8DecodeLenientGo fuel r2
            else Char.ofNat 0xFFFD :: utf8DecodeLenientGo fuel rest
        | _ => [Char.ofNat 0xFFFD]
      else if b < 0xF5 then
        match rest with
        | c1 :: c2 :: c3 :: r3 =>
            let val := (b - 0xF0) * 262144 + (c1 - 0x80) * 4096
                       + (c2 - 0x80) * 64 + (c3 - 0x80)
            if isContByte c1 && isContByte c2 && isContByte c3
                && 0x10000 ≤ val && val ≤ 0x10FFFF then
              Char.ofNat val :: utf8DecodeLenientGo fuel r3
            else Char.ofNat 0xFFFD :: utf8DecodeLenientGo fuel rest
        | _ => [Char.ofNat 0xFFFD]
      else Char.ofNat 0xFFFD :: utf8DecodeLenientGo fuel rest

/-- Lenient UTF-8 decoding of a whole byte list. -/
def utf8DecodeLenient (bs : List Nat) : List Char :=
  utf8DecodeLenientGo bs.length bs

/-- Strict UTF-8 decoding; `none` on any invalid sequence (used by the
`decodeURIComponent` model, which throws `URI malformed`). Fuel as in
`utf8DecodeLenientGo`. -/
def utf8DecodeStrictGo : Nat → List Nat → Option (List Char)
  | 0, bs => if bs = [] then some [] else none
  | _ + 1, [] => some []
  | fuel + 1, b :: rest =>
      if b < 0x80 then (utf8DecodeStrictGo fuel rest).map (fun cs => Char.ofNat b :: cs)
      else if b < 0xC2 then none
      else if b < 0xE0 then
        match rest with
        | c1 :: r1 =>
            if isContByte c1 then
              (utf8DecodeStrictGo fuel r1).map
                (fun cs => Char.ofNat ((b - 0xC0) * 64 + (c1 - 0x80)) :: cs)
            else none
        | [] => none
      else if b < 0xF0 then
        match rest with
        | c1 :: c2 :: r2 =>
            let val := (b - 0xE0) * 4096 + (c1 - 0x80) * 64 + (c2 - 0x80)
            if isContByte c1 && isContByte c2 && 0x800 ≤ val
                && (val < 0xD800 || 0xE000 ≤ val) then
              (utf8DecodeStrictGo fuel r2).map (fun cs => Char.ofNat val :: cs)
            else none
        | _ => none
      else if b < 0xF5 then
        match rest with
        | c1 :: c2 :: c3 :: r3 =>
            let val := (b - 0xF0) * 262144 + (c1 - 0x80) * 4096
                       + (c2 - 0x80) * 64 + (c3 - 0x80)
            if isContByte c1 && isContByte c2 && isContByte c3
                && 0x10000 ≤ val && val ≤ 0x10FFFF then
              (utf8DecodeStrictGo fuel r3).map (fun cs => Char.ofNat val :: cs)
            else none
        | _ => none
      else none

/-- Strict UTF-8 decoding of a whole byte list. -/
def utf8DecodeStrict (bs : List Nat) : Option (List Char) :=
  utf8DecodeStrictGo bs.length bs

/-- Characters `encodeURIComponent` leaves unescaped. -/
def isUriUnreserved (c : Char) : Bool :=
  c.isAlphanum || c = '-' || c = '_' || c = '.' || c = '!' || c = '~'
    || c = '*' || c = '\'' || c = '(' || c = ')'

/-- `encodeURIComponent`. -/
def encodeUriComponent (s : String) : String :=
  String.mk ((s.data.map (fun c =>
    if isUriUnreserved c then [c]
    else (utf8EncodeChar c).map (fun b => ['%', hexDigitUpper (b / 16), hexDigitUpper (b % 16)])
           |>.flatten)).flatten)

/-- Percent-decode a character list to bytes; `none` on a malformed `%`
escape. -/
def percentBytes : List Char → Option (List Nat)
  | [] => some []
  | '%' :: a :: b :: rest =>
      match hexVal a, hexVal b with
      | some x, some y => (percentBytes rest).map (fun bs => (16 * x + y) :: bs)
      | _, _ => none
  | '%' :: _ => none
  | c :: rest => (percentBytes rest).map (fun bs => utf8EncodeChar c ++ bs)

/-- `decodeURIComponent`, throwing `URI malformed` on bad escapes or
invalid UTF-8. -/
def decodeUriComponent (s : String) : Except String String :=
  match percentBytes s.data with
  | none => .error "URI malformed"
  | some bs =>
      match utf8DecodeStrict bs with
      | none => .error "URI malformed"
      | some cs => .ok (String.mk cs)

/-- The `encoders` table; `none` for an unknown format. -/
def encodeValue (format : String) (value : String) : Option String :=
  if format = "base64" then some (String.mk (base64Groups base64Chars true (utf8Bytes value)))
  else if format = "base64url" then
    some (String.mk (base64Groups base64UrlChars false (utf8Bytes value)))
  else if format = "hex" then
    some (String.mk ((utf8Bytes value).map
      (fun b => [hexDigit (b / 16), hexDigit (b % 16)]) |>.flatten))
  else if format = "url" then some (encodeUriComponent value)
  else none

/-- The `decoders` table; `none` for an unknown format, `some (.error _)`
when the decoder itself throws (only `url` can). -/
def decodeValue (format : String) (value : String) : Option (Except String String) :=
  if format = "base64" || format = "base64url" then
    some (.ok (String.mk (utf8DecodeLenient (base64DecodeVals (value.data.filterMap base64Val)))))
  else if format = "hex" then
    some (.ok (String.mk (utf8DecodeLenient (hexDecodePairs value.data))))
  else if format = "url" then some (decodeUriComponent value)
  else none

example : encodeValue "base64" "secret" = some "c2VjcmV0" := by decide

example : decodeValue "base64" "c2VjcmV0" = some (.ok "secret") := by decide

example : encodeValue "hex" "secret" = some "736563726574" := by decide

example : decodeValue "hex" "736563726574" = some (.ok "secret") := by decide

example : encodeValue "url" "a b&c" = some "a%20b%26c" := by decide

example : decodeValue "url" "a%20b%26c" = some (.ok "a b&c") := by decide

/-- `readFromFile(name, variable)`: the declared file must exist. The
caller passes the declared path; the error text is the source's. -/
def readFromFile (name filePath : String) (fs : String → Option String) :
    Except String String :=
  match fs filePath with
  | some text => .ok text
  | none =>
      .error ("Variable \"" ++ name ++ "\" specifies the file \"" ++ filePath
        ++ "\" as its source, but this file does not exist or is not readable. Ensure "
        ++ "it exists, or remove the \"file\" property from the variable "
        ++ "definition to let the action read the value from the build "
        ++ "environment automatically.")

/-- `readFromEnvironment(name, variable, variables)`: the named environment
variable must be defined; note the raw value is *not* interpolated. -/
def readFromEnvironment (name envName : String) (vars : List (String × String)) :
    Except String String :=
  match lookupMap vars envName with
  | some value => .ok value
  | none =>
      .error ("Variable \"" ++ name ++ "\" specifies the environment variable \""
        ++ envName ++ "\" as its source, but there is no such "
        ++ "variable defined in the environment. Ensure it exists, or remove "
        ++ "the \"environment\" property from the variable definition to let "
        ++ "the action infer the value from the variable name automatically.")

/-- `readFromContent(name, variable, variables)`: inline content *is*
interpolated against the environment. -/
def readFromContent (content : String) (vars : List (String × String)) :
    Except String String :=
  interpolateString content vars false

/-- `transformVariable(value, name, variable)`: write the value to a fresh
generated file (the write itself is a side effect outside the model),
delete the `environment`/`content` source pointers and point the
declaration at the generated path. `token` stands for `crypto.randomUUID()`. -/
def transformVariable (name : String) (v : Variable) (token : String) : Variable :=
  { v with
    environment := none,
    content := none,
    file := some ("./" ++ name ++ "." ++ token ++ ".generated.secret"),
    labels := some (v.labels.getD []) }

/-- `encodeVariable(content, name, variable)`. -/
def encodeVariable (content name : String) (v : Variable) : Except String String :=
  let format := (v.labels.bind (fun ls => lookupMap ls encodeLabel)).getD ""
  match encodeValue format content with
  | some result => .ok result
  | none =>
      .error ("Variable \"" ++ name ++ "\" specifies an unknown encoding format: \""
        ++ format ++ "\". Must be one of \"base64, base64url, hex, url\".")

/-- `decodeVariable(content, name, variable)`. -/
def decodeVariable (content name : String) (v : Variable) : Except String String :=
  let format := (v.labels.bind (fun ls => lookupMap ls decodeLabel)).getD ""
  match decodeValue format content with
  | some result => result
  | none =>
      .error ("Variable \"" ++ name ++ "\" specifies an unknown decoding format: \""
        ++ format ++ "\". Must be one of \"base64, base64url, hex, url\".")

/-- `inferVariable(name, variable, settings)`: no explicit source — try the
conventional secret file, then six environment-variable name variants in
order. -/
def inferVariable (name : String) (v : Variable) (s : Settings)
    (fs : String → Option String) (token : String) :
    Except String (String × Variable) :=
  let filePath := "./" ++ name ++ ".secret"
  match fs filePath with
  | some text => .ok (text, { v with file := some filePath })
  | none =>
      let safeName := String.mk (name.data.map (fun c => if c = '-' then '_' else c))
      let variantUpper := asciiUpper safeName
      let variants := [safeName, variantUpper,
        s.envVarPref ++ "_" ++ safeName, s.envVarPref ++ "_" ++ variantUpper,
        s.stack ++ "_" ++ safeName, asciiUpper (s.stack ++ "_" ++ safeName)]
      match variants.find? (fun variant => (lookupMap s.variableMap variant).isSome) with
      | some variant =>
          let value := (lookupMap s.variableMap variant).getD ""
          .ok (value, transformVariable name { v with environment := some variant } token)
      | none =>
          .error ("Variable \"" ++ name ++ "\" is not defined in the environment. To "
            ++ "use it as a secret or config, please set the environment variable \""
            ++ variantUpper ++ "\" or \"" ++ s.envVarPref ++ "_" ++ variantUpper
            ++ "\", or create a file named \"" ++ name
            ++ ".secret\" in the project root directory.")

/-- The tail of `processVariable`: hash the content, derive the versioned
name `{baseName}-{hash[:7]}` and merge the four reserved identity labels
over the user labels. -/
def finishVariable (name : String) (v : Variable) (modified : Option Variable)
    (content : String) (s : Settings) : Variable :=
  let hash := hashVariable content
  let variableName := ((modified.bind Variable.name) <|> v.name).getD (s.stack ++ "-" ++ name)
  let base := modified.getD v
  let baseLabels := ((modified.bind Variable.labels) <|> v.labels).getD []
  { base with
    name := some (variableName ++ "-" ++ strTake hash 7),
    labels := some (setLabelKey (setLabelKey (setLabelKey (setLabelKey
      baseLabels nameLabel name) hashLabel hash) stackLabel s.stack)
      versionLabel s.version) }

/-- The encode/decode step of `processVariable`: a mutually exclusive
`encode`/`decode` label directive transforms the content and re-transforms
the variable. -/
def variableEncoding (name : String) (v : Variable) (s : Settings) (token : String)
    (content : String) (modified : Option Variable) : Except String Variable :=
  match v.labels with
  | some ls =>
      if (lookupMap ls encodeLabel).isSome then
        match encodeVariable content name v with
        | .error e => .error e
        | .ok newContent =>
            .ok (finishVariable name v (some (transformVariable name v token)) newContent s)
      else if (lookupMap ls decodeLabel).isSome then
        match decodeVariable content name v with
        | .error e => .error e
        | .ok newContent =>
            .ok (finishVariable name v (some (transformVariable name v token)) newContent s)
      else .ok (finishVariable name v modified content s)
  | none => .ok (finishVariable name v modified content s)

/-- The step of `processVariable` after the three explicit-source branches:
content still undefined means no explicit source matched, so fall through
to inference. -/
def variableSources (name : String) (v : Variable) (s : Settings)
    (fs : String → Option String) (token : String)
    (content : Option String) (modified : Option Variable) : Except String Variable :=
  match content with
  | none =>
      match inferVariable name v s fs token with
      | .error e => .error e
      | .ok (text, inferred) => variableEncoding name v s token text (some inferred)
  | some text => variableEncoding name v s token text modified

/-- The body of `processVariable` once the ignore label has been checked
and a `null` declaration replaced by `{}`: the explicit-source `else if`
chain. A missing explicit file is fatal only under `strictVariables`;
otherwise the caught error leaves the content undefined and resolution
falls through to inference. -/
def processVariableBody (name : String) (v : Variable) (s : Settings)
    (fs : String → Option String) (token : String) : Except String Variable :=
  match v.file with
  | some filePath =>
      match readFromFile name filePath fs with
      | .ok text => variableSources name v s fs token (some text) none
      | .error e =>
          if s.strictVariables then .error e
          else variableSources name v s fs token none none
  | none =>
      match v.environment with
      | some envName =>
          match readFromEnvironment name envName s.variableMap with
          | .error e => .error e
          | .ok text =>
              variableSources name v s fs token (some text)
                (some (transformVariable name v token))
      | none =>
          match v.content with
          | some c =>
              match readFromContent c s.variableMap with
              | .error e => .error e
              | .ok text =>
                  variableSources name v s fs token (some text)
                    (some (transformVariable name v token))
          | none => variableSources name v s fs token none none

/-- `processVariable(name, variable, settings)`: ignore-labelled variables
are returned unchanged; a `null` declaration becomes `{}`. -/
def processVariable (name : String) (varDecl : Option Variable) (s : Settings)
    (fs : String → Option String) (token : String) : Except String Variable :=
  match varDecl with
  | some v =>
      if (v.labels.bind (fun ls => lookupMap ls ignoreLabel)) = some "true" then .ok v
      else processVariableBody name v s fs token
  | none => processVariableBody name emptyVariable s fs token

/-- Settings fixture of the variables test suite. -/
def testSettings : Settings :=
  { stack := "test", version := "1.0.0", envVarPref := "APP",
    strictVariables := true, variableMap := [], monitor := false,
    monitorTimeout := 300, monitorInterval := 5 }

/-- No files exist. -/
def noFs : String → Option String := fun _ => none

example :
    processVariable "foo" (some { emptyVariable with content := some "secret" })
      testSettings noFs "36934723-0a0b-4eb6-ab9d-d3a4e5e3cb34" =
    .ok { name := some ("test-foo-" ++ strTake (hashVariable "secret") 7),
          labels := some [(nameLabel, "foo"), (hashLabel, hashVariable "secret"),
                          (stackLabel, "test"), (versionLabel, "1.0.0")],
          file := some "./foo.36934723-0a0b-4eb6-ab9d-d3a4e5e3cb34.generated.secret",
          environment := none, content := none } := by decide

example :
    processVariable "foo" (some { emptyVariable with file := some "./missing.txt" })
      { testSettings with strictVariables := false, variableMap := [("FOO", "secret")] }
      noFs "36934723-0a0b-4eb6-ab9d-d3a4e5e3cb34" =
    .ok { name := some ("test-foo-" ++ strTake (hashVariable "secret") 7),
          labels := some [(nameLabel, "foo"), (hashLabel, hashVariable "secret"),
                          (stackLabel, "test"), (versionLabel, "1.0.0")],
          file := some "./foo.36934723-0a0b-4eb6-ab9d-d3a4e5e3cb34.generated.secret",
          environment := none, content := none } := by decide

example :
    processVariable "foo" (some { emptyVariable with file := some "path/to/file" })
      testSettings (fun p => if p = "path/to/file" then some "secret" else none) "t" =
    .ok { name := some ("test-foo-" ++ strTake (hashVariable "secret") 7),
          labels := some [(nameLabel, "foo"), (hashLabel, hashVariable "secret"),
                          (stackLabel, "test"), (versionLabel, "1.0.0")],
          file := some "path/to/file",
          environment := none, content := none } := by decide

example :
    processVariable "foo"
      (some { emptyVariable with labels := some [(ignoreLabel, "true")], content := some "x" })
      testSettings noFs "t" =
    .ok { emptyVariable with labels := some [(ignoreLabel, "true")], content := some "x" } := by
  decide

/-!
## Garbage Collector (`pruneSecrets` / `pruneConfigs`)

Translated from `src/unnamed/part_015`. The control-plane inventory is an
explicit list (the result of the stack-filtered `listSecrets`/`listConfigs`
call); the observable effect of a prune run is the ordered list of issued
`remove*` calls and rotation warnings. Timestamps are epoch milliseconds:
`new Date(CreatedAt ?? 0)` becomes `CreatedAt.getD 0`, and the source's
calendar-based `oneYearAgo` (365 days before now) is 365 days in
milliseconds before `now`.
-/

/-- Result of `marshalLabels`: the four reserved identity labels, all
present and non-empty (JS truthiness on strings). -/
structure MarshalledLabels where
  name : String
  hash : String
  stack : String
  version : String
deriving DecidableEq, Repr

/-- `marshalLabels(labels)`: `undefined` unless all four reserved labels
are present and truthy. -/
def marshalLabels (labels : Option (List (String × String))) : Option MarshalledLabels :=
  let get := fun k => labels.bind (fun ls => lookupMap ls k)
  match get nameLabel, get hashLabel, get stackLabel, get versionLabel with
  | some n, some h, some st, some ver =>
      if n = "" || h = "" || st = "" || ver = "" then none
      else some ⟨n, h, st, ver⟩
  | _, _, _, _ => none

/-- `variableIdentifier({stack, name, hash})`: the identity key is the
plain concatenation `stack + name + hash`. -/
def variableIdentifier (m : MarshalledLabels) : String :=
  m.stack ++ m.name ++ m.hash

/-- `shouldRotate(createdAt)` relative to an explicit clock. -/
def shouldRotate (createdAt now : Int) : Bool :=
  createdAt < now - 365 * 86400000

/-- An inventory item as reported by `listSecrets`/`listConfigs`. -/
structure InventoryItem where
  ID : String
  Name : Option String
  CreatedAt : Option Int
  Labels : Option (List (String × String))
deriving DecidableEq, Repr

/-- An observable prune effect: a control-plane removal or a non-fatal
rotation warning. -/
inductive PruneAction where
  | remove (id : String)
  | rotateWarning (name : String)
deriving DecidableEq, Repr

/-- The identity-key set built from the current spec's variables:
`Object.values(...).map(marshalLabels).filter(defined).map(variableIdentifier)`. -/
def specVariableIds (spec : List Variable) : List String :=
  spec.filterMap (fun v => (marshalLabels v.labels).map variableIdentifier)

/-- One iteration of the `pruneSecrets` loop: unmarshallable labels →
remove; identity key absent from the spec → remove; and, independently, an
item older than the rotation threshold warns (note there is no `continue`
after the removal, so a removed item can also warn). -/
def pruneSecretItemActions (specIds : List String) (now : Int) (it : InventoryItem) :
    List PruneAction :=
  match marshalLabels it.Labels with
  | none => [.remove it.ID]
  | some m =>
      (if specIds.contains (variableIdentifier m) then [] else [.remove it.ID])
        ++ (if shouldRotate (it.CreatedAt.getD 0) now then
              [.rotateWarning (it.Name.getD it.ID)]
            else [])

/-- `pruneSecrets({secrets}, {stack})`: the issued actions, in order. -/
def pruneSecretsActions (spec : List Variable) (items : List InventoryItem) (now : Int) :
    List PruneAction :=
  (items.map (pruneSecretItemActions (specVariableIds spec) now)).flatten

/-- One iteration of the `pruneConfigs` loop: identical removal logic, but
no rotation check at all. -/
def pruneConfigItemActions (specIds : List String) (it : InventoryItem) : List PruneAction :=
  match marshalLabels it.Labels with
  | none => [.remove it.ID]
  | some m =>
      if specIds.contains (variableIdentifier m) then [] else [.remove it.ID]

/-- `pruneConfigs({configs}, {stack})`: the issued actions, in order. -/
def pruneConfigsActions (spec : List Variable) (items : List InventoryItem) :
    List PruneAction :=
  (items.map (pruneConfigItemActions (specVariableIds spec))).flatten

/-!
## Rollout Monitor (`src/monitoring.ts`)

`monitorDeployment` as a state machine over an explicit stream of
snapshot lists `polls : Nat → List MonService` (the successive
`listServices` results). The loop body is faithful to the source:
decrement `attemptsLeft` at the top and throw `Deployment timed out` when
it reaches zero, otherwise fetch, check each not-yet-completed service,
and exit once the completed-ID set is no smaller than the fetched list.
The per-iteration sleep and the best-effort failure diagnostics (logs,
task details) are side effects outside the model; the thrown failure is
the original `isServiceUpdateComplete` error, which the source rethrows
unchanged after collecting diagnostics.
-/

/-- A service update status: `State` may be absent even when the object
itself is present. -/
structure UpdateStatusInfo where
  State : Option String
  Message : Option String
deriving DecidableEq, Repr

/-- A service snapshot (the fields `isServiceUpdateComplete` and
`isServiceRunning` consult). -/
structure MonService where
  ID : String
  SpecName : Option String
  Name : Option String
  Replicas : Option String
  UpdateStatus : Option UpdateStatusInfo
deriving DecidableEq, Repr

/-- `service.Spec?.Name ?? service.Name` as displayed in error messages
(JS prints `undefined` when both are absent). -/
def monSvcName (svc : MonService) : String :=
  ((svc.SpecName).orElse (fun _ => svc.Name)).getD "undefined"

/-- Split a character list at `/`, the semantics of
`Replicas.split("/", 2)` after taking the first two fields. -/
def splitOnSlash : List Char → List (List Char)
  | [] => [[]]
  | c :: rest =>
      let r := splitOnSlash rest
      if c = '/' then [] :: r
      else
        match r with
        | h :: t => (c :: h) :: t
        | [] => [[c]]

/-- `isServiceRunning(service)`: a falsy (absent or empty) `Replicas` is
not running; otherwise compare the `running`/`desired` fields of
`Replicas.split("/", 2)` — a strict (`===`) string comparison, where a
missing second field defaults to the *number* 0 and therefore never equals
the string first field. -/
def isServiceRunning (svc : MonService) : Bool :=
  match svc.Replicas with
  | none => false
  | some r =>
      if r = "" then false
      else
        match (splitOnSlash r.data).take 2 with
        | [runnin, desired] => runnin == desired
        | _ => false

/-- `resolveFailureReason(state, message)`: the fixed lookup table (an
unrecognised state falls back to `Unknown failure reason`), with any truthy
status message appended. -/
def resolveFailureReason (state : String) (message : Option String) : String :=
  let reason :=
    if state = "paused" then
      "Service update paused due to task failure (check task logs for details)"
    else if state = "rollback_started" then
      "Service failed to update and is being rolled back"
    else if state = "rollback_completed" then
      "Service failed to update and was rolled back"
    else if state = "rollback_paused" then
      "Service rollback paused due to task failure (check task logs for details)"
    else if state = "unknown" then
      "Service update status '" ++ state ++ "' is unknown"
    else "Unknown failure reason"
  reason ++ (match message with
             | some m => if m = "" then "" else ": " ++ m
             | none => "")

/-- `isServiceUpdateComplete(service)`: no `UpdateStatus` → judge by
replicas; a present `UpdateStatus` with a missing `State` counts as
`updating`; `completed`/`updating` → done/pending; anything else throws. -/
def isServiceUpdateComplete (svc : MonService) : Except String Bool :=
  match svc.UpdateStatus with
  | none => .ok (isServiceRunning svc)
  | some us =>
      let updateStatus := us.State.getD "updating"
      if updateStatus = "completed" then .ok true
      else if updateStatus = "updating" then .ok false
      else
        .error ("Update of service \"" ++ monSvcName svc ++ "\" failed: "
          ++ resolveFailureReason updateStatus us.Message)

/-- The `for (const service of services)` body folded over one fetched
list: skip already-completed IDs, propagate the first thrown failure,
collect newly completed IDs (JS `Set` insertion order). -/
def processServices : List MonService → List String → Except String (List String)
  | [], completed => .ok completed
  | svc :: rest, completed =>
      if completed.contains svc.ID then processServices rest completed
      else
        match isServiceUpdateComplete svc with
        | .error e => .error e
        | .ok true => processServices rest (completed ++ [svc.ID])
        | .ok false => processServices rest completed

/-- Result of a monitor run. -/
inductive MonitorOutcome where
  | disabled
  | converged
  | timedOut
  | failed (message : String)
deriving DecidableEq, Repr

/-- `Math.ceil(a / b)` on naturals, faithful only for `0 < b`: JS float
division by zero gives `Infinity` (or `NaN` for `0/0`), so with
`monitorInterval = 0` the program's attempt counter is not a natural
number at all and the `--attemptsLeft <= 0` check never fires — that case
is modelled separately by `monitorLoopNoTimeout` below. -/
def ceilDiv (a b : Nat) : Nat := (a + b - 1) / b

/-- The monitor loop: first component is the outcome, second the number of
`listServices` fetches performed. The fuel is `attemptsLeft`; the
`--attemptsLeft <= 0` check at the top of each iteration is the
`fuel ≤ 1` case, and each later iteration recurses with `fuel - 1`. -/
def monitorLoop (polls : Nat → List MonService) :
    Nat → List String → Nat → MonitorOutcome × Nat
  | _, _, 0 => (.timedOut, 0)
  | _, _, 1 => (.timedOut, 0)
  | k, completed, fuel + 2 =>
      match processServices (polls k) completed with
      | .error e => (.failed e, 1)
      | .ok completed' =>
          if (polls k).length ≤ completed'.length then (.converged, 1)
          else
            let next := monitorLoop polls (k + 1) completed' (fuel + 1)
            (next.1, next.2 + 1)

/-- `monitorDeployment(settings)` with its fetch count: a no-op when
monitoring is disabled, otherwise the loop started with
`attemptsLeft = ceil(monitorTimeout / monitorInterval)`, an empty
completed set and the first poll. Faithful for `0 < monitorInterval`; see
`ceilDiv` and `monitorLoopNoTimeout` for the division-by-zero corner. -/
def monitorRun (s : Settings) (polls : Nat → List MonService) : MonitorOutcome × Nat :=
  if s.monitor = false then (.disabled, 0)
  else monitorLoop polls 0 [] (ceilDiv s.monitorTimeout s.monitorInterval)

/-- `monitorDeployment(settings)`: the outcome alone. -/
def monitorDeployment (s : Settings) (polls : Nat → List MonService) : MonitorOutcome :=
  (monitorRun s polls).1

/-- The monitor loop when `monitorInterval = 0`: the program's
`attemptsLeft` is `Math.ceil(t/0) = Infinity` (or `NaN` for `0/0`), so
`--attemptsLeft <= 0` is never true and the timeout branch is
unreachable — the body just fetches and checks forever. The `fuel` here
is only an observation bound, not part of the program: `some o` means the
loop exits with outcome `o` within `fuel` iterations, `none` that it has
not exited yet. -/
def monitorLoopNoTimeout (polls : Nat → List MonService) :
    Nat → List String → Nat → Option MonitorOutcome
  | _, _, 0 => none
  | k, completed, fuel + 1 =>
      match processServices (polls k) completed with
      | .error e => some (.failed e)
      | .ok completed' =>
          if (polls k).length ≤ completed'.length then some .converged
          else monitorLoopNoTimeout polls (k + 1) completed' fuel

/-- The `monitorInterval = 0` run never exits, whatever iteration bound is
observed. -/
def monitorNeverExits (polls : Nat → List MonService) : Prop :=
  ∀ fuel, monitorLoopNoTimeout polls 0 [] fuel = none

/-- Specification predicate (not from the source): the first `n` polls all
process without a thrown failure and without reaching convergence — i.e.
after each of them some service is still incomplete. -/
def stillPending (polls : Nat → List MonService) : Nat → List String → Nat → Bool
  | _, _, 0 => true
  | k, completed, n + 1 =>
      match processServices (polls k) completed with
      | .error _ => false
      | .ok completed' =>
          if (polls k).length ≤ completed'.length then false
          else stillPending polls (k + 1) completed' n

/-- Monitor settings fixture of the monitoring test suite. -/
def monitorTestSettings : Settings :=
  { stack := "testso", version := "1.0.0", envVarPref := "APP",
    strictVariables := false, variableMap := [], monitor := true,
    monitorTimeout := 300, monitorInterval := 5 }

/-- An updating service snapshot. -/
def updatingSvc (id : String) : MonService :=
  { ID := id, SpecName := some "test", Name := none, Replicas := none,
    UpdateStatus := some { State := some "updating", Message := none } }

/-- A completed service snapshot. -/
def completedSvc (id : String) : MonService :=
  { ID := id, SpecName := some "test", Name := none, Replicas := none,
    UpdateStatus := some { State := some "completed", Message := none } }

example :
    monitorRun monitorTestSettings (fun k =>
      if k ≤ 1 then [updatingSvc "web_service"] else [completedSvc "web_service"]) =
    (.converged, 3) := by decide

example :
    monitorRun { monitorTestSettings with monitorTimeout := 3, monitorInterval := 1 }
      (fun _ => [updatingSvc "web_service"]) = (.timedOut, 2) := by decide

example :
    monitorRun monitorTestSettings (fun k =>
      if k ≤ 1 then [updatingSvc "web_service"]
      else [{ updatingSvc "web_service" with
              UpdateStatus := some { State := some "rollback_started", Message := none } }]) =
    (.failed ("Update of service \"test\" failed: "
      ++ "Service failed to update and is being rolled back"), 3) := by decide

example :
    monitorRun { monitorTestSettings with monitor := false } (fun _ => []) =
    (.disabled, 0) := by decide

example :
    isServiceUpdateComplete
      { ID := "svc1", SpecName := some "svc1", Name := some "svc1",
        Replicas := some "2/2", UpdateStatus := none } = .ok true := by decide

example :
    isServiceUpdateComplete
      { ID := "svc1", SpecName := some "svc1", Name := some "svc1",
        Replicas := some "1/2",
        UpdateStatus := some { State := none, Message := some "Service is updating" } } =
    .ok false := by decide

/-!
## Shared lemmas
-/

/-- Keys filtered out never match a later lookup. -/
theorem find_filter_ne (m : List (String × String)) (k : String) :
    (m.filter (fun p => p.1 != k)).find? (fun p => p.1 == k) = none := by
  induction m with
  | nil => rfl
  | cons a t ih =>
      by_cases h : a.1 = k
      · simp [List.filter_cons, h, ih]
      · simp [List.filter_cons, h, List.find?_cons, ih]

/-- Looking up the key just set returns the new value. -/
theorem lookupMap_set_self (m : List (String × String)) (k v : String) :
    lookupMap (setLabelKey m k v) k = some v := by
  unfold lookupMap setLabelKey
  rw [List.find?_append, find_filter_ne]
  simp

/-- Setting one key leaves other lookups unchanged. -/
theorem lookupMap_set_ne (m : List (String × String)) (k k' v : String)
    (h : k ≠ k') : lookupMap (setLabelKey m k' v) k = lookupMap m k := by
  unfold lookupMap setLabelKey
  rw [List.find?_append]
  have hfilter : (m.filter (fun p => p.1 != k')).find? (fun p => p.1 == k)
      = m.find? (fun p => p.1 == k) := by
    induction m with
    | nil => rfl
    | cons a t ih =>
        have hke : (k' == k) = false := by
          simp [Ne.symm h]
        by_cases ha : a.1 = k'
        · simp [List.filter_cons, ha, List.find?_cons, hke, ih]
        · by_cases hk : a.1 = k
          · simp [List.filter_cons, ha, List.find?_cons, hk, h]
          · simp [List.filter_cons, ha, List.find?_cons, hk, h, ih]
  rw [hfilter]
  cases hf : m.find? (fun p => p.1 == k) with
  | some p => rfl
  | none => simp [List.find?_cons, Ne.symm h]

/-- The hash label of a resolved variable. -/
def variableLabel (v : Variable) (k : String) : Option String :=
  v.labels.bind (fun ls => lookupMap ls k)

/-!
## Claim C1 — pruning never removes a declared identity
-/

/-- Claim C1: for every compose specification and every inventory returned
by the control plane, neither `pruneSecrets` nor `pruneConfigs` issues a
remove call for an inventory item whose four identity labels marshal to a
`(stack, logicalName, hash)` identity matching the identity labels of some
variable currently declared in the specification. -/
theorem prune_never_removes_declared
    (spec : List Variable) (now : Int) (it : InventoryItem)
    (m dm : MarshalledLabels) (v : Variable)
    (hit : marshalLabels it.Labels = some m)
    (hv : v ∈ spec) (hdm : marshalLabels v.labels = some dm)
    (hstack : dm.stack = m.stack) (hname : dm.name = m.name) (hhash : dm.hash = m.hash) :
    PruneAction.remove it.ID ∉ pruneSecretItemActions (specVariableIds spec) now it
      ∧ PruneAction.remove it.ID ∉ pruneConfigItemActions (specVariableIds spec) it := by
  have hidmem : variableIdentifier m ∈ specVariableIds spec := by
    have hdmmem : variableIdentifier dm ∈ specVariableIds spec :=
      List.mem_filterMap.mpr ⟨v, hv, by rw [hdm]; rfl⟩
    have hid : variableIdentifier dm = variableIdentifier m := by
      unfold variableIdentifier
      rw [hstack, hname, hhash]
    rwa [hid] at hdmmem
  have hcontains : (specVariableIds spec).contains (variableIdentifier m) = true := by
    exact List.elem_eq_true_of_mem hidmem
  constructor
  · unfold pruneSecretItemActions
    rw [hit]
    simp only [hcontains, if_true, List.nil_append]
    split
    · simp
    · simp
  · unfold pruneConfigItemActions
    rw [hit]
    simp [hidmem]

/-- Witness for C1 at a concrete spec, inventory item and clock. -/
theorem prune_never_removes_declared_witness :
    PruneAction.remove "sid1" ∉
        pruneSecretItemActions (specVariableIds
          [{ emptyVariable with labels := some [(nameLabel, "db"), (hashLabel, "h1"),
             (stackLabel, "demo"), (versionLabel, "1")] }]) 0
          { ID := "sid1", Name := some "demo-db-h1", CreatedAt := some 0,
            Labels := some [(nameLabel, "db"), (hashLabel, "h1"),
                            (stackLabel, "demo"), (versionLabel, "1")] }
      ∧ PruneAction.remove "sid1" ∉
        pruneConfigItemActions (specVariableIds
          [{ emptyVariable with labels := some [(nameLabel, "db"), (hashLabel, "h1"),
             (stackLabel, "demo"), (versionLabel, "1")] }])
          { ID := "sid1", Name := some "demo-db-h1", CreatedAt := some 0,
            Labels := some [(nameLabel, "db"), (hashLabel, "h1"),
                            (stackLabel, "demo"), (versionLabel, "1")] } :=
  prune_never_removes_declared
    [{ emptyVariable with labels := some [(nameLabel, "db"), (hashLabel, "h1"),
       (stackLabel, "demo"), (versionLabel, "1")] }] 0
    { ID := "sid1", Name := some "demo-db-h1", CreatedAt := some 0,
      Labels := some [(nameLabel, "db"), (hashLabel, "h1"),
                      (stackLabel, "demo"), (versionLabel, "1")] }
    ⟨"db", "h1", "demo", "1"⟩ ⟨"db", "h1", "demo", "1"⟩
    { emptyVariable with labels := some [(nameLabel, "db"), (hashLabel, "h1"),
      (stackLabel, "demo"), (versionLabel, "1")] }
    (by decide) (by decide) (by decide) rfl rfl rfl

/-!
## Claim C8 — pruneSecrets vs pruneConfigs
-/

/-- The remove calls within an action list, in order. -/
def removalsOf (actions : List PruneAction) : List String :=
  actions.filterMap (fun a =>
    match a with
    | .remove id => some id
    | .rotateWarning _ => none)

/-- `removalsOf` distributes over append. -/
theorem removalsOf_append (a b : List PruneAction) :
    removalsOf (a ++ b) = removalsOf a ++ removalsOf b := by
  simp [removalsOf]

/-- Per item, the two prune loops issue the same removals. -/
theorem pruneItem_removals_eq (ids : List String) (now : Int) (it : InventoryItem) :
    removalsOf (pruneSecretItemActions ids now it)
      = removalsOf (pruneConfigItemActions ids it) := by
  unfold pruneSecretItemActions pruneConfigItemActions
  cases hm : marshalLabels it.Labels with
  | none => rfl
  | some m =>
      dsimp only
      rw [removalsOf_append]
      split
      · split <;> rfl
      · split <;> rfl

/-- The config prune loop never issues a rotation warning. -/
theorem pruneConfigItem_no_rotate (ids : List String) (it : InventoryItem) (n : String) :
    PruneAction.rotateWarning n ∉ pruneConfigItemActions ids it := by
  unfold pruneConfigItemActions
  cases hm : marshalLabels it.Labels with
  | none => simp
  | some m => split <;> simp

/-- Claim C8 (amended): for the same declared-identity set and the same
inventory, `pruneSecrets` and `pruneConfigs` issue the same deletions, but
the rotation warning exists only on the secrets side — `pruneConfigs`
issues no rotation warning at all. -/
theorem prune_secrets_configs_same_removals
    (spec : List Variable) (items : List InventoryItem) (now : Int) :
    removalsOf (pruneSecretsActions spec items now)
        = removalsOf (pruneConfigsActions spec items)
      ∧ ∀ n, PruneAction.rotateWarning n ∉ pruneConfigsActions spec items := by
  constructor
  · induction items with
    | nil => rfl
    | cons it rest ih =>
        have h1 : pruneSecretsActions spec (it :: rest) now
            = pruneSecretItemActions (specVariableIds spec) now it
                ++ pruneSecretsActions spec rest now := by
          simp [pruneSecretsActions]
        have h2 : pruneConfigsActions spec (it :: rest)
            = pruneConfigItemActions (specVariableIds spec) it
                ++ pruneConfigsActions spec rest := by
          simp [pruneConfigsActions]
        rw [h1, h2, removalsOf_append, removalsOf_append, pruneItem_removals_eq, ih]
  · intro n
    induction items with
    | nil => simp [pruneConfigsActions]
    | cons it rest ih =>
        have h2 : pruneConfigsActions spec (it :: rest)
            = pruneConfigItemActions (specVariableIds spec) it
                ++ pruneConfigsActions spec rest := by
          simp [pruneConfigsActions]
        rw [h2]
        simp only [List.mem_append]
        rintro (h | h)
        · exact pruneConfigItem_no_rotate _ it n h
        · exact ih h

/-- Counterexample for C8 as stated: a declared, up-to-date but old secret
triggers the rotation warning in `pruneSecrets`, while `pruneConfigs` on
the same spec and inventory warns about nothing — the two prune runs do
not issue the same warnings. -/
theorem rotation_warning_only_for_secrets :
    PruneAction.rotateWarning "demo-db-h1" ∈ pruneSecretsActions
        [{ emptyVariable with labels := some [(nameLabel, "db"), (hashLabel, "h1"),
           (stackLabel, "demo"), (versionLabel, "1")] }]
        [{ ID := "sid1", Name := some "demo-db-h1", CreatedAt := some 0,
           Labels := some [(nameLabel, "db"), (hashLabel, "h1"),
                           (stackLabel, "demo"), (versionLabel, "1")] }]
        40000000000
      ∧ PruneAction.rotateWarning "demo-db-h1" ∉ pruneConfigsActions
        [{ emptyVariable with labels := some [(nameLabel, "db"), (hashLabel, "h1"),
           (stackLabel, "demo"), (versionLabel, "1")] }]
        [{ ID := "sid1", Name := some "demo-db-h1", CreatedAt := some 0,
           Labels := some [(nameLabel, "db"), (hashLabel, "h1"),
                           (stackLabel, "demo"), (versionLabel, "1")] }] := by
  decide

/-!
## Claim C6 — `$$` escaping
-/

/-- Counterexample for C6 as stated: interpolating `$$LITERAL` with
`LITERAL` bound does leave the reference unexpanded, but the doubled `$$`
is *not* restored to a single `$` — the result is not `"$LITERAL"` (the
repository's Escaping tests pin `"$$NAME" ↦ "$$NAME"`). -/
theorem escaped_dollar_not_collapsed :
    interpolateString "$$LITERAL" [("LITERAL", "x")] false ≠ .ok "$LITERAL" := by
  decide

/-- Claim C6 (amended): interpolating a text in which a variable reference
is escaped by doubling the dollar sign leaves the reference unexpanded and
preserves the doubled `$$` verbatim:
`interpolate("$$LITERAL", {LITERAL: "x"})` returns `"$$LITERAL"`. -/
theorem escaped_dollar_preserved :
    interpolateString "$$LITERAL" [("LITERAL", "x")] false = .ok "$$LITERAL" := by
  decide

/-!
## Claim C2 — hash of inline content
-/

/-- Counterexample for C2 as stated: inline content is interpolated before
hashing, so for `C = "$X"` under an environment binding `X ↦ "y"` the hash
label is the digest of the trimmed *interpolated* content `"y"`, not of
`trim(C) = "$X"`. -/
theorem content_hash_not_sha256_of_raw :
    ((processVariable "db_user"
        (some { emptyVariable with content := some "$X" })
        { testSettings with variableMap := [("X", "y")] } noFs "tok").map
      (fun r => variableLabel r hashLabel)
        = .ok (some (sha256Hex (jsTrim "y"))))
      ∧ ((processVariable "db_user"
        (some { emptyVariable with content := some "$X" })
        { testSettings with variableMap := [("X", "y")] } noFs "tok").map
      (fun r => variableLabel r hashLabel)
        ≠ .ok (some (sha256Hex (jsTrim "$X")))) := by
  constructor
  · decide
  · decide

/-- Claim C2 (amended): resolving a variable declared with inline content
`C` produces a hash label equal to the SHA-256 hex digest of the trimmed
*interpolation* of `C` against the environment:
`resolve(name, {content: C}, env).hash = sha256hex(trim(interpolate(C, env)))`. -/
theorem content_hash_is_sha256_of_interpolated
    (name C : String) (s : Settings) (fs : String → Option String) (token : String)
    (val : String) (hinterp : interpolateString C s.variableMap false = .ok val) :
    (processVariable name (some { emptyVariable with content := some C }) s fs token).map
      (fun r => variableLabel r hashLabel)
        = .ok (some (sha256Hex (jsTrim val))) := by
  unfold processVariable processVariableBody readFromContent
  dsimp only [emptyVariable]
  rw [hinterp]
  rfl

/-- Witness for the amended C2 at concrete content and environment. -/
theorem content_hash_is_sha256_of_interpolated_witness :
    (processVariable "db_user" (some { emptyVariable with content := some "$X" })
        { testSettings with variableMap := [("X", "y")] } noFs "tok").map
      (fun r => variableLabel r hashLabel) = .ok (some (sha256Hex (jsTrim "y"))) :=
  content_hash_is_sha256_of_interpolated "db_user" "$X"
    { testSettings with variableMap := [("X", "y")] } noFs "tok" "y" (by decide)

/-!
## Claim C7 — missing explicit file and `strictVariables`
-/

/-- The file-not-found error text of `readFromFile`. -/
def fileNotFoundMessage (name filePath : String) : String :=
  "Variable \"" ++ name ++ "\" specifies the file \"" ++ filePath
    ++ "\" as its source, but this file does not exist or is not readable. Ensure "
    ++ "it exists, or remove the \"file\" property from the variable "
    ++ "definition to let the action read the value from the build "
    ++ "environment automatically."

/-- `readFromFile` on a missing file produces exactly that error. -/
theorem readFromFile_missing (name filePath : String) (fs : String → Option String)
    (h : fs filePath = none) :
    readFromFile name filePath fs = .error (fileNotFoundMessage name filePath) := by
  unfold readFromFile fileNotFoundMessage
  rw [h]

set_option maxRecDepth 8192 in
/-- Counterexample for C7 as stated: a declaration with a missing explicit
file *and* inline content, under disabled `strictVariables` and an empty
environment, fails with the source-inference error — resolution fell
through to inference (spec step 5), not to the inline-content source
(step 4), which would have succeeded with content `"x"`. -/
theorem file_missing_nonstrict_not_content :
    (processVariable "db"
        (some { emptyVariable with file := some "./app.conf", content := some "x" })
        { testSettings with strictVariables := false } noFs "tok"
      = .error ("Variable \"db\" is not defined in the environment. To "
          ++ "use it as a secret or config, please set the environment variable \""
          ++ "DB\" or \"APP_DB\", or create a file named \"db"
          ++ ".secret\" in the project root directory."))
      ∧ readFromContent "x" [] = .ok "x" := by
  constructor
  · decide
  · decide

/-- Claim C7 (amended): when a declaration names an explicit `file` source
and the file does not exist, resolution fails with the file error when
`strictVariables` is enabled; when it is disabled the missing file itself
is not fatal and resolution falls through to source inference (the
`variableSources`/`inferVariable` continuation, spec step 5 — not the
inline-content source), which may itself still fail. -/
theorem file_missing_fatal_iff_strict
    (name filePath : String) (v : Variable) (s : Settings)
    (fs : String → Option String) (token : String)
    (hfile : v.file = some filePath) (hmissing : fs filePath = none)
    (hnoignore : ¬ (v.labels.bind (fun ls => lookupMap ls ignoreLabel)) = some "true") :
    (s.strictVariables = true →
        processVariable name (some v) s fs token
          = .error (fileNotFoundMessage name filePath))
      ∧ (s.strictVariables = false →
        processVariable name (some v) s fs token
          = variableSources name v s fs token none none) := by
  have hbody : processVariable name (some v) s fs token
      = processVariableBody name v s fs token := by
    unfold processVariable
    dsimp only
    rw [if_neg hnoignore]
  constructor
  · intro hstrict
    rw [hbody]
    unfold processVariableBody
    rw [hfile]
    dsimp only
    rw [readFromFile_missing name filePath fs hmissing, hstrict]
    simp
  · intro hlax
    rw [hbody]
    unfold processVariableBody
    rw [hfile]
    dsimp only
    rw [readFromFile_missing name filePath fs hmissing, hlax]
    simp

/-- Witness for the amended C7 at a concrete declaration, one run with
strict variables enabled and one with them disabled. -/
theorem file_missing_fatal_iff_strict_witness :
    (processVariable "db"
        (some { emptyVariable with file := some "./app.conf", content := some "x" })
        testSettings noFs "tok" = .error (fileNotFoundMessage "db" "./app.conf"))
      ∧ (processVariable "db"
        (some { emptyVariable with file := some "./app.conf", content := some "x" })
        { testSettings with strictVariables := false } noFs "tok"
          = variableSources "db"
              { emptyVariable with file := some "./app.conf", content := some "x" }
              { testSettings with strictVariables := false } noFs "tok" none none) :=
  ⟨(file_missing_fatal_iff_strict "db" "./app.conf"
      { emptyVariable with file := some "./app.conf", content := some "x" }
      testSettings noFs "tok" rfl rfl (by decide)).1 rfl,
   (file_missing_fatal_iff_strict "db" "./app.conf"
      { emptyVariable with file := some "./app.conf", content := some "x" }
      { testSettings with strictVariables := false } noFs "tok" rfl rfl (by decide)).2 rfl⟩

/-!
## Claim C4 — timeout characterization
-/

/-- The loop times out exactly when the first `fuel - 1` polls all process
without failure and without convergence. -/
theorem monitorLoop_timeout_iff (polls : Nat → List MonService) :
    ∀ (fuel k : Nat) (completed : List String),
      (monitorLoop polls k completed fuel).1 = .timedOut
        ↔ stillPending polls k completed (fuel - 1) = true := by
  intro fuel
  induction fuel using Nat.strong_induction_on with
  | _ fuel ih =>
      intro k completed
      match fuel with
      | 0 => simp [monitorLoop, stillPending]
      | 1 => simp [monitorLoop, stillPending]
      | n + 2 =>
          show (monitorLoop polls k completed (n + 2)).1 = .timedOut
            ↔ stillPending polls k completed (n + 1) = true
          unfold monitorLoop stillPending
          cases hp : processServices (polls k) completed with
          | error e => simp
          | ok completed' =>
              dsimp only
              by_cases hconv : (polls k).length ≤ completed'.length
              · simp [hconv]
              · simp only [hconv, if_neg, if_false]
                have := ih (n + 1) (by omega) (k + 1) completed'
                simpa using this

/-- Claim C4: with monitoring enabled and a positive poll interval, the
monitor — started with `attemptsLeft = ceil(monitorTimeout /
monitorInterval)` and decrementing at the top of every iteration — throws
`Deployment timed out` exactly when the counter reaches zero before a
fetch while the run is still incomplete: the outcome is `timedOut` iff
each of the first `attempts - 1` polls left some service incomplete
without a thrown failure; it never times out while attempts remain. -/
theorem monitor_timeout_iff_attempts_exhausted
    (s : Settings) (polls : Nat → List MonService)
    (hm : s.monitor = true) (hi : 0 < s.monitorInterval) :
    monitorDeployment s polls = .timedOut
      ↔ stillPending polls 0 []
          (ceilDiv s.monitorTimeout s.monitorInterval - 1) = true := by
  unfold monitorDeployment monitorRun
  rw [hm]
  simp only [Bool.true_eq_false, if_false]
  exact monitorLoop_timeout_iff polls _ 0 []

/-- Witness for C4: timeout 3 / interval 1 with a never-completing service
gives three attempts, two pending polls, and the timeout error. -/
theorem monitor_timeout_iff_attempts_exhausted_witness :
    monitorDeployment
        { monitorTestSettings with monitorTimeout := 3, monitorInterval := 1 }
        (fun _ => [updatingSvc "web_service"]) = .timedOut :=
  (monitor_timeout_iff_attempts_exhausted
      { monitorTestSettings with monitorTimeout := 3, monitorInterval := 1 }
      (fun _ => [updatingSvc "web_service"]) rfl (by decide)).mpr (by decide)

/-!
## Claim C9 — the polling loop is bounded
-/

/-- The loop performs at most `fuel - 1` fetches. -/
theorem monitorLoop_fetches_le (polls : Nat → List MonService) :
    ∀ (fuel k : Nat) (completed : List String),
      (monitorLoop polls k completed fuel).2 ≤ fuel - 1 := by
  intro fuel
  induction fuel using Nat.strong_induction_on with
  | _ fuel ih =>
      intro k completed
      match fuel with
      | 0 => simp [monitorLoop]
      | 1 => simp [monitorLoop]
      | n + 2 =>
          unfold monitorLoop
          cases hp : processServices (polls k) completed with
          | error e => simp
          | ok completed' =>
              dsimp only
              by_cases hconv : (polls k).length ≤ completed'.length
              · simp [hconv]
              · simp only [hconv, if_neg, if_false]
                have := ih (n + 1) (by omega) (k + 1) completed'
                omega

/-- Counterexample for C9 as stated: termination does *not* hold for every
settings value. With monitoring enabled and `monitorInterval = 0` — a
reachable configuration, since the setting is `parseInt` of a user input —
the program's attempt counter is `Math.ceil(timeout/0) = Infinity`, the
`--attemptsLeft <= 0` check never fires, and on a stream whose only
service reports `updating` forever the loop never exits: no observation
bound sees it terminate. -/
theorem monitor_unbounded_at_zero_interval :
    ({ monitorTestSettings with monitorInterval := 0 } : Settings).monitor = true
      ∧ ({ monitorTestSettings with monitorInterval := 0 } : Settings).monitorInterval = 0
      ∧ monitorNeverExits (fun _ => [updatingSvc "web_service"]) := by
  refine ⟨rfl, rfl, ?_⟩
  intro fuel
  suffices h : ∀ (n k : Nat),
      monitorLoopNoTimeout (fun _ => [updatingSvc "web_service"]) k [] n = none from
    h fuel 0
  intro n
  induction n with
  | zero => intro k; rfl
  | succ n ih =>
      intro k
      have hstep : processServices
          ((fun (_ : Nat) => [updatingSvc "web_service"]) k) [] = .ok [] := rfl
      unfold monitorLoopNoTimeout
      rw [hstep]
      exact ih (k + 1)

/-- Claim C9 (amended): for every settings value with a *positive* poll
interval and every — possibly never-converging — stream of snapshots, the
monitor terminates: it is a total function whose attempt counter strictly
decreases each iteration, it performs at most
`ceil(monitorTimeout / monitorInterval) - 1` fetches, and it exits only by
convergence, by a thrown failure, by the timeout error, or as the disabled
no-op. At `monitorInterval = 0` the attempt counter is infinite and the
loop need not terminate (`monitor_unbounded_at_zero_interval`). -/
theorem monitor_always_terminates (s : Settings) (polls : Nat → List MonService)
    (hi : 0 < s.monitorInterval) :
    (monitorRun s polls).2 ≤ ceilDiv s.monitorTimeout s.monitorInterval - 1
      ∧ ((monitorRun s polls).1 = .disabled ∨ (monitorRun s polls).1 = .converged
          ∨ (monitorRun s polls).1 = .timedOut
          ∨ ∃ msg, (monitorRun s polls).1 = .failed msg) := by
  constructor
  · unfold monitorRun
    split
    · simp
    · exact monitorLoop_fetches_le polls _ 0 []
  · cases h : (monitorRun s polls).1 with
    | disabled => exact Or.inl rfl
    | converged => exact Or.inr (Or.inl rfl)
    | timedOut => exact Or.inr (Or.inr (Or.inl rfl))
    | failed msg => exact Or.inr (Or.inr (Or.inr ⟨msg, rfl⟩))

/-- Witness for the amended C9 at a concrete positive-interval settings
value and a never-converging stream: two fetches at most and one of the
four exit outcomes. -/
theorem monitor_always_terminates_witness :
    (monitorRun { monitorTestSettings with monitorTimeout := 3, monitorInterval := 1 }
        (fun _ => [updatingSvc "web_service"])).2
      ≤ ceilDiv 3 1 - 1
      ∧ ((monitorRun { monitorTestSettings with monitorTimeout := 3, monitorInterval := 1 }
            (fun _ => [updatingSvc "web_service"])).1 = .disabled
          ∨ (monitorRun { monitorTestSettings with monitorTimeout := 3, monitorInterval := 1 }
              (fun _ => [updatingSvc "web_service"])).1 = .converged
          ∨ (monitorRun { monitorTestSettings with monitorTimeout := 3, monitorInterval := 1 }
              (fun _ => [updatingSvc "web_service"])).1 = .timedOut
          ∨ ∃ msg,
            (monitorRun { monitorTestSettings with monitorTimeout := 3, monitorInterval := 1 }
              (fun _ => [updatingSvc "web_service"])).1 = .failed msg) :=
  monitor_always_terminates
    { monitorTestSettings with monitorTimeout := 3, monitorInterval := 1 }
    (fun _ => [updatingSvc "web_service"]) (by decide)

/-!
## Claim C10 — half-initialized statuses never fail
-/

/-- Claim C10 (implicit): a snapshot whose `UpdateStatus` object is present
but whose `State` field is missing is treated as still updating —
`isServiceUpdateComplete` returns `false` and never throws — and a
snapshot with no `UpdateStatus` at all is judged solely by its replica
counts. -/
theorem update_status_stateless_never_fails (svc : MonService) (us : UpdateStatusInfo) :
    (svc.UpdateStatus = some us → us.State = none →
        isServiceUpdateComplete svc = .ok false)
      ∧ (svc.UpdateStatus = none →
        isServiceUpdateComplete svc = .ok (isServiceRunning svc)) := by
  constructor
  · intro h1 h2
    unfold isServiceUpdateComplete
    rw [h1]
    simp [h2]
  · intro h
    unfold isServiceUpdateComplete
    rw [h]

/-- Witness for C10: a stateless update status with partial replicas
yields `ok false`; an absent update status is judged by replicas. -/
theorem update_status_stateless_never_fails_witness :
    isServiceUpdateComplete
        { ID := "svc1", SpecName := some "svc1", Name := some "svc1",
          Replicas := some "1/2",
          UpdateStatus := some { State := none, Message := some "Service is updating" } }
        = .ok false
      ∧ isServiceUpdateComplete
        { ID := "svc1", SpecName := some "svc1", Name := some "svc1",
          Replicas := some "2/2", UpdateStatus := none }
        = .ok (isServiceRunning
          { ID := "svc1", SpecName := some "svc1", Name := some "svc1",
            Replicas := some "2/2", UpdateStatus := none }) :=
  ⟨(update_status_stateless_never_fails
      { ID := "svc1", SpecName := some "svc1", Name := some "svc1",
        Replicas := some "1/2",
        UpdateStatus := some { State := none, Message := some "Service is updating" } }
      { State := none, Message := some "Service is updating" }).1 rfl rfl,
   (update_status_stateless_never_fails
      { ID := "svc1", SpecName := some "svc1", Name := some "svc1",
        Replicas := some "2/2", UpdateStatus := none }
      { State := none, Message := none }).2 rfl⟩

/-!
## Claim C5 — immediate failure on a bad explicit update state
-/

/-- If some not-yet-completed service in a fetched list throws from
`isServiceUpdateComplete`, the whole per-poll pass throws (possibly an
earlier service's error). Distinct IDs in the list keep the service from
being shadowed by a same-ID entry completing first. -/
theorem processServices_error_of_bad
    (l : List MonService) (completed : List String) (svc : MonService)
    (hmem : svc ∈ l) (hskip : svc.ID ∉ completed)
    (hnodup : (l.map MonService.ID).Nodup)
    (herr : ∃ e, isServiceUpdateComplete svc = .error e) :
    ∃ e, processServices l completed = .error e := by
  induction l generalizing completed with
  | nil => cases hmem
  | cons a rest ih =>
      have hnodupRest : (rest.map MonService.ID).Nodup := (List.nodup_cons.mp hnodup).2
      have haNotIn : a.ID ∉ rest.map MonService.ID := (List.nodup_cons.mp hnodup).1
      rcases List.mem_cons.mp hmem with heq | hmemRest
      · subst heq
        have hc : completed.contains svc.ID = false := by
          simpa using hskip
        obtain ⟨e, he⟩ := herr
        refine ⟨e, ?_⟩
        unfold processServices
        rw [hc, he]
        rfl
      · unfold processServices
        cases hc : completed.contains a.ID with
        | true =>
            rw [if_pos rfl]
            exact ih completed hmemRest hskip hnodupRest
        | false =>
            rw [if_neg Bool.false_ne_true]
            cases hres : isServiceUpdateComplete a with
            | error e => exact ⟨e, rfl⟩
            | ok b =>
                cases b with
                | true =>
                    refine ih (completed ++ [a.ID]) hmemRest ?_ hnodupRest
                    have hne : svc.ID ≠ a.ID := by
                      intro hcontra
                      exact haNotIn (hcontra ▸ List.mem_map_of_mem MonService.ID hmemRest)
                    simp [hskip, hne]
                | false => exact ih completed hmemRest hskip hnodupRest

/-- Claim C5 (amended): for every fetched *not-yet-completed* service
snapshot whose explicit update-status state is neither `completed` nor
`updating`, `isServiceUpdateComplete` throws the error built from the
fixed failure-reason lookup table plus any status message — regardless of
the replica counts — and the monitor fails on that poll regardless of how
many attempts remain (the poll's services carrying distinct IDs). -/
theorem monitor_fails_on_bad_update_state
    (polls : Nat → List MonService) (k : Nat) (completed : List String) (fuel : Nat)
    (svc : MonService) (us : UpdateStatusInfo) (st : String)
    (hfuel : 2 ≤ fuel) (hmem : svc ∈ polls k) (hskip : svc.ID ∉ completed)
    (hnodup : ((polls k).map MonService.ID).Nodup)
    (hus : svc.UpdateStatus = some us) (hst : us.State = some st)
    (hc : st ≠ "completed") (hu : st ≠ "updating") :
    isServiceUpdateComplete svc
        = .error ("Update of service \"" ++ monSvcName svc ++ "\" failed: "
            ++ resolveFailureReason st us.Message)
      ∧ ∃ msg, (monitorLoop polls k completed fuel).1 = .failed msg := by
  have hbad : isServiceUpdateComplete svc
      = .error ("Update of service \"" ++ monSvcName svc ++ "\" failed: "
          ++ resolveFailureReason st us.Message) := by
    unfold isServiceUpdateComplete
    rw [hus]
    simp [hst, hc, hu]
  refine ⟨hbad, ?_⟩
  obtain ⟨n, rfl⟩ : ∃ n, fuel = n + 2 := ⟨fuel - 2, by omega⟩
  obtain ⟨e, he⟩ := processServices_error_of_bad (polls k) completed svc hmem hskip hnodup
    ⟨_, hbad⟩
  refine ⟨e, ?_⟩
  unfold monitorLoop
  rw [he]

/-- Witness for the amended C5 at a concrete rolled-back service with
plenty of attempts remaining. -/
theorem monitor_fails_on_bad_update_state_witness :
    isServiceUpdateComplete
        { ID := "web_service", SpecName := some "test", Name := none,
          Replicas := some "2/2",
          UpdateStatus := some { State := some "rollback_started", Message := none } }
        = .error ("Update of service \"test\" failed: "
            ++ resolveFailureReason "rollback_started" none)
      ∧ ∃ msg,
        (monitorLoop
          (fun _ => [{ ID := "web_service", SpecName := some "test", Name := none,
                       Replicas := some "2/2",
                       UpdateStatus := some { State := some "rollback_started",
                                              Message := none } }])
          0 [] 60).1 = .failed msg :=
  monitor_fails_on_bad_update_state
    (fun _ => [{ ID := "web_service", SpecName := some "test", Name := none,
                 Replicas := some "2/2",
                 UpdateStatus := some { State := some "rollback_started",
                                        Message := none } }])
    0 [] 60
    { ID := "web_service", SpecName := some "test", Name := none,
      Replicas := some "2/2",
      UpdateStatus := some { State := some "rollback_started", Message := none } }
    { State := some "rollback_started", Message := none } "rollback_started"
    (by decide) (by decide) (by decide) (by decide) rfl rfl (by decide) (by decide)

/-- Counterexample for C5 as stated: a service that already reported
`completed` on an earlier poll is skipped on later polls, so a subsequent
`rollback_started` snapshot of it is never examined — the monitor runs on
to the timeout instead of failing on that poll, even though a fetched
snapshot carried a bad explicit state while attempts remained. -/
theorem completed_service_rollback_not_failed :
    ({ ID := "x", SpecName := some "test", Name := none, Replicas := none,
       UpdateStatus := some { State := some "rollback_started", Message := none } }
        ∈ (fun k => if k = 0 then [completedSvc "x", updatingSvc "y"]
                    else [{ ID := "x", SpecName := some "test", Name := none,
                            Replicas := none,
                            UpdateStatus := some { State := some "rollback_started",
                                                   Message := none } },
                          updatingSvc "y"] : Nat → List MonService) 1)
      ∧ monitorLoop
          (fun k => if k = 0 then [completedSvc "x", updatingSvc "y"]
                    else [{ ID := "x", SpecName := some "test", Name := none,
                            Replicas := none,
                            UpdateStatus := some { State := some "rollback_started",
                                                   Message := none } },
                          updatingSvc "y"])
          0 [] 4 = (.timedOut, 3) := by
  constructor
  · decide
  · decide

/-!
## Claim C3 — the materialized name is independent of the random token
-/

/-- `transformVariable` never changes the declared output name. -/
theorem transformVariable_name (name : String) (v : Variable) (t : String) :
    (transformVariable name v t).name = v.name := rfl

/-- The finishing step's output name depends on the modified variable only
through its declared name. -/
theorem finishVariable_name_eq (name : String) (v : Variable)
    (m1 m2 : Option Variable) (content : String) (s : Settings)
    (h : m1.bind Variable.name = m2.bind Variable.name) :
    (finishVariable name v m1 content s).name
      = (finishVariable name v m2 content s).name := by
  unfold finishVariable
  dsimp only
  rw [h]

/-- The encode/decode step's output name is independent of the temp-file
token. -/
theorem variableEncoding_name_eq (name : String) (v : Variable) (s : Settings)
    (t1 t2 content : String) (m1 m2 : Option Variable)
    (h : m1.bind Variable.name = m2.bind Variable.name) :
    (variableEncoding name v s t1 content m1).map Variable.name
      = (variableEncoding name v s t2 content m2).map Variable.name := by
  unfold variableEncoding
  cases hl : v.labels with
  | none =>
      dsimp only [Except.map]
      rw [finishVariable_name_eq name v m1 m2 content s h]
  | some ls =>
      dsimp only
      cases he : (lookupMap ls encodeLabel).isSome with
      | true =>
          rw [if_pos rfl, if_pos rfl]
          cases henc : encodeVariable content name v with
          | error e => rfl
          | ok newContent =>
              dsimp only [Except.map]
              rw [finishVariable_name_eq name v
                (some (transformVariable name v t1))
                (some (transformVariable name v t2)) newContent s rfl]
      | false =>
          rw [if_neg Bool.false_ne_true, if_neg Bool.false_ne_true]
          cases hd : (lookupMap ls decodeLabel).isSome with
          | true =>
              rw [if_pos rfl, if_pos rfl]
              cases hdec : decodeVariable content name v with
              | error e => rfl
              | ok newContent =>
                  dsimp only [Except.map]
                  rw [finishVariable_name_eq name v
                    (some (transformVariable name v t1))
                    (some (transformVariable name v t2)) newContent s rfl]
          | false =>
              rw [if_neg Bool.false_ne_true, if_neg Bool.false_ne_true]
              dsimp only [Except.map]
              rw [finishVariable_name_eq name v m1 m2 content s h]

/-- The inference step returns the same content and declared name whatever
the token is (only the generated file path differs). -/
theorem inferVariable_shape (name : String) (v : Variable) (s : Settings)
    (fs : String → Option String) (t1 t2 : String) :
    (inferVariable name v s fs t1).map (fun p => (p.1, p.2.name))
      = (inferVariable name v s fs t2).map (fun p => (p.1, p.2.name)) := by
  unfold inferVariable
  dsimp only
  cases hfs : fs ("./" ++ name ++ ".secret") with
  | some text => rfl
  | none =>
      dsimp only
      split <;> rfl

/-- The post-source step's output name is independent of the token. -/
theorem variableSources_name_eq (name : String) (v : Variable) (s : Settings)
    (fs : String → Option String) (t1 t2 : String) (content : Option String)
    (m1 m2 : Option Variable) (h : m1.bind Variable.name = m2.bind Variable.name) :
    (variableSources name v s fs t1 content m1).map Variable.name
      = (variableSources name v s fs t2 content m2).map Variable.name := by
  unfold variableSources
  cases content with
  | some text => exact variableEncoding_name_eq name v s t1 t2 text m1 m2 h
  | none =>
      dsimp only
      have hsh := inferVariable_shape name v s fs t1 t2
      cases h1 : inferVariable name v s fs t1 with
      | error e1 =>
          cases h2 : inferVariable name v s fs t2 with
          | error e2 =>
              rw [h1, h2] at hsh
              simp only [Except.map, Except.error.injEq] at hsh
              rw [hsh]
          | ok p2 =>
              rw [h1, h2] at hsh
              simp [Except.map] at hsh
      | ok p1 =>
          cases h2 : inferVariable name v s fs t2 with
          | error e2 =>
              rw [h1, h2] at hsh
              simp [Except.map] at hsh
          | ok p2 =>
              rw [h1, h2] at hsh
              simp only [Except.map, Except.ok.injEq, Prod.mk.injEq] at hsh
              obtain ⟨hval, hname⟩ := hsh
              dsimp only
              rw [hval]
              exact variableEncoding_name_eq name v s t1 t2 p2.1
                (some p1.2) (some p2.2) (by simpa using hname)

/-- The resolution body's output name is independent of the token. -/
theorem processVariableBody_name_eq (name : String) (v : Variable) (s : Settings)
    (fs : String → Option String) (t1 t2 : String) :
    (processVariableBody name v s fs t1).map Variable.name
      = (processVariableBody name v s fs t2).map Variable.name := by
  unfold processVariableBody
  cases hf : v.file with
  | some filePath =>
      dsimp only
      cases hr : readFromFile name filePath fs with
      | ok text =>
          exact variableSources_name_eq name v s fs t1 t2 (some text) none none rfl
      | error e =>
          dsimp only
          cases hs : s.strictVariables with
          | true => rw [if_pos rfl, if_pos rfl]
          | false =>
              rw [if_neg Bool.false_ne_true, if_neg Bool.false_ne_true]
              exact variableSources_name_eq name v s fs t1 t2 none none none rfl
  | none =>
      dsimp only
      cases hev : v.environment with
      | some envName =>
          dsimp only
          cases hr : readFromEnvironment name envName s.variableMap with
          | error e => rfl
          | ok text =>
              dsimp only
              exact variableSources_name_eq name v s fs t1 t2 (some text)
                (some (transformVariable name v t1))
                (some (transformVariable name v t2)) rfl
      | none =>
          dsimp only
          cases hc : v.content with
          | some c =>
              dsimp only
              cases hr : readFromContent c s.variableMap with
              | error e => rfl
              | ok text =>
                  dsimp only
                  exact variableSources_name_eq name v s fs t1 t2 (some text)
                    (some (transformVariable name v t1))
                    (some (transformVariable name v t2)) rfl
          | none =>
              dsimp only
              exact variableSources_name_eq name v s fs t1 t2 none none none rfl

/-- Claim C3: resolving the same declaration twice — same declaration,
environment, stack and logical name, hence the same trimmed content —
yields the same materialized variable name `{baseName}-{hash[:7]}` in both
runs, even though each run's generated temp-file path embeds a fresh
random token: the resolved name (and any thrown error) is independent of
the token. -/
theorem resolve_name_token_independent (name : String) (varDecl : Option Variable)
    (s : Settings) (fs : String → Option String) (t1 t2 : String) :
    (processVariable name varDecl s fs t1).map Variable.name
      = (processVariable name varDecl s fs t2).map Variable.name := by
  unfold processVariable
  cases varDecl with
  | none => exact processVariableBody_name_eq name emptyVariable s fs t1 t2
  | some v =>
      dsimp only
      by_cases hig : (v.labels.bind (fun ls => lookupMap ls ignoreLabel)) = some "true"
      · rw [if_pos hig, if_pos hig]
      · rw [if_neg hig, if_neg hig]
        exact processVariableBody_name_eq name v s fs t1 t2

/-- Witness for the amended C8 at a concrete spec and inventory: the
removal lists agree and the config prune issues no rotation warning. -/
theorem prune_secrets_configs_same_removals_witness :
    removalsOf (pruneSecretsActions
        [{ emptyVariable with labels := some [(nameLabel, "db"), (hashLabel, "h1"),
           (stackLabel, "demo"), (versionLabel, "1")] }]
        [{ ID := "sid9", Name := some "stale", CreatedAt := some 0,
           Labels := some [(nameLabel, "db"), (hashLabel, "h0"),
                           (stackLabel, "demo"), (versionLabel, "1")] }] 40000000000)
      = removalsOf (pruneConfigsActions
        [{ emptyVariable with labels := some [(nameLabel, "db"), (hashLabel, "h1"),
           (stackLabel, "demo"), (versionLabel, "1")] }]
        [{ ID := "sid9", Name := some "stale", CreatedAt := some 0,
           Labels := some [(nameLabel, "db"), (hashLabel, "h0"),
                           (stackLabel, "demo"), (versionLabel, "1")] }])
      ∧ PruneAction.rotateWarning "stale" ∉ pruneConfigsActions
        [{ emptyVariable with labels := some [(nameLabel, "db"), (hashLabel, "h1"),
           (stackLabel, "demo"), (versionLabel, "1")] }]
        [{ ID := "sid9", Name := some "stale", CreatedAt := some 0,
           Labels := some [(nameLabel, "db"), (hashLabel, "h0"),
                           (stackLabel, "demo"), (versionLabel, "1")] }] :=
  ⟨(prune_secrets_configs_same_removals
      [{ emptyVariable with labels := some [(nameLabel, "db"), (hashLabel, "h1"),
         (stackLabel, "demo"), (versionLabel, "1")] }]
      [{ ID := "sid9", Name := some "stale", CreatedAt := some 0,
         Labels := some [(nameLabel, "db"), (hashLabel, "h0"),
                         (stackLabel, "demo"), (versionLabel, "1")] }] 40000000000).1,
   (prune_secrets_configs_same_removals
      [{ emptyVariable with labels := some [(nameLabel, "db"), (hashLabel, "h1"),
         (stackLabel, "demo"), (versionLabel, "1")] }]
      [{ ID := "sid9", Name := some "stale", CreatedAt := some 0,
         Labels := some [(nameLabel, "db"), (hashLabel, "h0"),
                         (stackLabel, "demo"), (versionLabel, "1")] }] 40000000000).2 "stale"⟩
